import Mathlib

/-!
Verification of the manager layer of the 3D-Explorer BIM viewer.

Each manager class of the repository is embedded as a pure Lean state
transformer.  JavaScript Maps and plain objects keyed by strings are
modelled as insertion-ordered association lists, numbers as rationals,
and the JavaScript value a method call evaluates to as the type JsRet
below, so that returning a bare boolean, null, or undefined are
distinguishable outcomes.
-/

namespace Explorer3D

/-- The JavaScript value a manager method call evaluates to: an explicit
boolean, the null sentinel, or undefined (a bare return or falling off the
end of the function body). -/
inductive JsRet where
  | bool (b : Bool)
  | null
  | undef
  deriving DecidableEq, Repr

/-- String.prototype.trim: strip leading and trailing whitespace. -/
def jsTrim (s : String) : String :=
  String.mk (((s.data.dropWhile Char.isWhitespace).reverse.dropWhile Char.isWhitespace).reverse)

/-- String.prototype.toUpperCase, applied per code point. -/
def jsToUpper (s : String) : String :=
  String.mk (s.data.map Char.toUpper)

/-- A JavaScript Map (or plain object used as a dictionary) with string
keys: an insertion-ordered association list. -/
abbrev JsMap (α : Type) := List (String × α)

/-- Map.prototype.has / Object key membership. -/
def jsHas {α : Type} (m : JsMap α) (k : String) : Bool :=
  m.any (fun p => p.1 == k)

/-- Map.prototype.get, none when the key is absent. -/
def jsGet {α : Type} (m : JsMap α) (k : String) : Option α :=
  (m.find? (fun p => p.1 == k)).map (fun p => p.2)

/-- Map.prototype.set / object index assignment: overwrite in place when the
key exists, otherwise append, preserving insertion order. -/
def jsSet {α : Type} (m : JsMap α) (k : String) (v : α) : JsMap α :=
  if jsHas m k then m.map (fun p => if p.1 = k then (k, v) else p)
  else m ++ [(k, v)]

/-- Map.prototype.delete (ignoring its boolean result, which the repository
never inspects). -/
def jsDelete {α : Type} (m : JsMap α) (k : String) : JsMap α :=
  m.filter (fun p => !(p.1 == k))

/-- Array.from(map.keys()). -/
def jsKeys {α : Type} (m : JsMap α) : List String :=
  m.map (fun p => p.1)

/-! ## ViewsManager (src/items-finder.js)

State of the saved-views bookkeeping of ViewsManager: the savedViews Map,
the currentViewName field, the camera the manager reads from
this.world.camera.three, and the clock reading used for the timestamp. -/

/-- The camera pose saveCurrentView captures: position, rotation (Euler
angles), field of view and zoom.  Numbers are modelled as rationals. -/
structure CameraPose where
  posX : ℚ
  posY : ℚ
  posZ : ℚ
  rotX : ℚ
  rotY : ℚ
  rotZ : ℚ
  fov : ℚ
  zoom : ℚ
  deriving DecidableEq, Repr

/-- The record saveCurrentView stores in the savedViews Map: the name, the
cloned camera pose, and a timestamp string. -/
structure ViewData where
  name : String
  pose : CameraPose
  timestamp : String
  deriving DecidableEq, Repr

structure ViewsState where
  savedViews : JsMap ViewData
  currentViewName : Option String
  camera : CameraPose
  /-- The value new Date().toLocaleTimeString() would produce now. -/
  now : String
  deriving DecidableEq, Repr

namespace ViewsManager

/-- items-finder.js lines 693-719.  The guard is the JS test
(not viewName or viewName.trim() is the empty string); for a String
argument the first disjunct is truthiness of the empty string. -/
def saveCurrentView (s : ViewsState) (viewName : String) : JsRet × ViewsState :=
  if viewName = "" ∨ jsTrim viewName = "" then (.bool false, s)
  else
    let viewData : ViewData := { name := viewName, pose := s.camera, timestamp := s.now }
    (.bool true, { s with savedViews := jsSet s.savedViews viewName viewData })

/-- items-finder.js lines 761-779. -/
def deleteView (s : ViewsState) (viewName : String) : JsRet × ViewsState :=
  if jsHas s.savedViews viewName then
    (.bool true,
      { s with
        savedViews := jsDelete s.savedViews viewName,
        currentViewName :=
          if s.currentViewName = some viewName then none else s.currentViewName })
  else (.bool false, s)

/-- items-finder.js lines 790-792. -/
def getViewNames (s : ViewsState) : List String :=
  jsKeys s.savedViews

/-- items-finder.js lines 808-810. -/
def hasView (s : ViewsState) (viewName : String) : Bool :=
  jsHas s.savedViews viewName

end ViewsManager

/-! ## ClipperManager (src/unnamed/part_001)

The OBC.Clipper component is modelled as its enabled flag, its config
object (color, opacity, size, visible), and its list of clipping planes.
The repository reads clipper.list with Map operations (list.size, and
entry destructuring in toggleClippings), so list is modelled as a JsMap of
plane id to plane. -/

/-- One clipping plane of clipper.list: the fields the repository touches. -/
structure ClipPlane where
  visible : Bool
  enabled : Bool
  deriving DecidableEq, Repr

/-- clipper.config: the fields the repository reads or writes. -/
structure ClipperConfig where
  colorHex : ℕ
  opacity : ℚ
  size : ℚ
  visible : Bool
  deriving DecidableEq, Repr

/-- The OBC.Clipper component instance. -/
structure Clipper where
  enabled : Bool
  config : ClipperConfig
  list : JsMap ClipPlane
  deriving DecidableEq, Repr

/-- ClipperManager instance state: this.clipper (null before a successful
init) and this.clipperReady. -/
structure ClipperState where
  clipper : Option Clipper
  clipperReady : Bool
  deriving DecidableEq, Repr

namespace ClipperManager

/-- part_001 lines 335-363.  The fetched argument is the result of
components.get(OBC.Clipper); on success init disables the clipper and sets
the default config: red color 0xff0000, opacity 0.2, size 5, visible. -/
def init (fetched : Option Clipper) (s : ClipperState) : JsRet × ClipperState :=
  match fetched with
  | none => (.bool false, { s with clipper := none })
  | some c =>
      (.bool true,
        { clipper := some
            { c with
              enabled := false,
              config :=
                { colorHex := 0xff0000, opacity := 1/5, size := 5, visible := true } },
          clipperReady := true })

/-- part_001 lines 366-380. -/
def setEnabled (s : ClipperState) (enabled : Bool) : JsRet × ClipperState :=
  match s.clipper with
  | none => (.bool false, s)
  | some c => (.bool true, { s with clipper := some { c with enabled := enabled } })

/-- part_001 lines 388-403.  clipper.create(world) adds the plane the
library raycast produces; that plane is the newPlane argument here, keyed
by a fresh id. -/
def createClippingPlane (s : ClipperState) (newId : String) (newPlane : ClipPlane) :
    JsRet × ClipperState :=
  match s.clipper with
  | none => (.bool false, s)
  | some c =>
      if c.enabled then
        (.bool true, { s with clipper := some { c with list := jsSet c.list newId newPlane } })
      else (.bool false, s)

/-- part_001 lines 406-420.  clipper.delete(world) removes the plane under
the cursor, if any; which plane that is comes from the library raycast and
is the target argument here. -/
def deleteClippingPlane (s : ClipperState) (target : Option String) : JsRet × ClipperState :=
  match s.clipper with
  | none => (.bool false, s)
  | some c =>
      match target with
      | none => (.bool true, s)
      | some k => (.bool true, { s with clipper := some { c with list := jsDelete c.list k } })

/-- part_001 lines 423-437. -/
def deleteAllClippingPlanes (s : ClipperState) : JsRet × ClipperState :=
  match s.clipper with
  | none => (.bool false, s)
  | some c => (.bool true, { s with clipper := some { c with list := [] } })

/-- part_001 lines 440-457.  The JS loop is
for (const plane of this.clipper.list) plane.visible = not plane.visible.
Iterating a Map yields a fresh two-element entry array per entry, so the
assignment writes a .visible property onto that transient array and every
stored ClipPlane object is left untouched; the loop then reports success. -/
def togglePlaneVisibility (s : ClipperState) : JsRet × ClipperState :=
  match s.clipper with
  | none => (.bool false, s)
  | some _ => (.bool true, s)

/-- part_001 lines 460-477.  Here the loop destructures the entry, so the
enabled flag of every stored clipping plane really is negated. -/
def toggleClippings (s : ClipperState) : JsRet × ClipperState :=
  match s.clipper with
  | none => (.bool false, s)
  | some c =>
      let c2 := { c with list := c.list.map (fun p => (p.1, { p.2 with enabled := !p.2.enabled })) }
      (.bool true, { s with clipper := some c2 })

/-- part_001 lines 480-494. -/
def setPlaneColor (s : ClipperState) (colorHex : ℕ) : JsRet × ClipperState :=
  match s.clipper with
  | none => (.bool false, s)
  | some c =>
      (.bool true,
        { s with clipper := some { c with config := { c.config with colorHex := colorHex } } })

/-- part_001 lines 497-513: Math.max(0.1, Math.min(1.0, opacity)). -/
def setPlaneOpacity (s : ClipperState) (opacity : ℚ) : JsRet × ClipperState :=
  match s.clipper with
  | none => (.bool false, s)
  | some c =>
      let clampedOpacity := max (1/10) (min 1 opacity)
      (.bool true,
        { s with clipper := some { c with config := { c.config with opacity := clampedOpacity } } })

/-- part_001 lines 516-532: Math.max(2, Math.min(10, size)). -/
def setPlaneSize (s : ClipperState) (size : ℚ) : JsRet × ClipperState :=
  match s.clipper with
  | none => (.bool false, s)
  | some c =>
      let clampedSize := max 2 (min 10 size)
      (.bool true,
        { s with clipper := some { c with config := { c.config with size := clampedSize } } })

/-- part_001 lines 535-549. -/
def setPlaneVisibleInConfig (s : ClipperState) (visible : Bool) : JsRet × ClipperState :=
  match s.clipper with
  | none => (.bool false, s)
  | some c =>
      (.bool true,
        { s with clipper := some { c with config := { c.config with visible := visible } } })

/-- The clipping-plane map of the current state (empty when this.clipper
is null). -/
def planeList (s : ClipperState) : JsMap ClipPlane :=
  match s.clipper with
  | none => []
  | some c => c.list

/-- One public ClipperManager operation, with the data the wrapped library
call contributes carried as payload. -/
inductive ClipperOp where
  | setEnabled (b : Bool)
  | createClippingPlane (newId : String) (newPlane : ClipPlane)
  | deleteClippingPlane (target : Option String)
  | deleteAllClippingPlanes
  | togglePlaneVisibility
  | toggleClippings
  | setPlaneColor (colorHex : ℕ)
  | setPlaneOpacity (opacity : ℚ)
  | setPlaneSize (size : ℚ)
  | setPlaneVisibleInConfig (visible : Bool)
  deriving DecidableEq, Repr

/-- Apply one ClipperManager operation to the manager state. -/
def step (op : ClipperOp) (s : ClipperState) : JsRet × ClipperState :=
  match op with
  | .setEnabled b => setEnabled s b
  | .createClippingPlane newId newPlane => createClippingPlane s newId newPlane
  | .deleteClippingPlane target => deleteClippingPlane s target
  | .deleteAllClippingPlanes => deleteAllClippingPlanes s
  | .togglePlaneVisibility => togglePlaneVisibility s
  | .toggleClippings => toggleClippings s
  | .setPlaneColor c => setPlaneColor s c
  | .setPlaneOpacity o => setPlaneOpacity s o
  | .setPlaneSize z => setPlaneSize s z
  | .setPlaneVisibleInConfig v => setPlaneVisibleInConfig s v

/-- The config invariant of claim C9: whenever a clipper is present, its
opacity lies in [0.1, 1] and its size in [2, 10]. -/
def ConfigInv (s : ClipperState) : Prop :=
  ∀ c, s.clipper = some c →
    1/10 ≤ c.config.opacity ∧ c.config.opacity ≤ 1 ∧
    2 ≤ c.config.size ∧ c.config.size ≤ 10

end ClipperManager

/-! ## AreaMeasurementManager (src/items-finder.js) -/

/-- The library AreaMeasurement instance: the fields the manager touches. -/
structure Measurer where
  enabled : Bool
  colorHex : ℕ
  measurementCount : ℕ
  deriving DecidableEq, Repr

structure AreaMeasurementState where
  measurer : Option Measurer
  enabled : Bool
  deriving DecidableEq, Repr

namespace AreaMeasurementManager

/-- items-finder.js lines 1109-1115.  The method has no try/catch at all;
the guard return (when this.measurer is null) and the fall-through end of
the body both make the call evaluate to undefined. -/
def toggle (s : AreaMeasurementState) (enabled : Bool) : JsRet × AreaMeasurementState :=
  match s.measurer with
  | none => (.undef, s)
  | some m =>
      (.undef, { measurer := some { m with enabled := enabled }, enabled := enabled })

/-- items-finder.js lines 1074-1083.  The guard is
(not this.measurer or not this.enabled); measurer.create() starts a new
measurement; the catch branch only logs.  Every path evaluates to
undefined. -/
def create (s : AreaMeasurementState) : JsRet × AreaMeasurementState :=
  match s.measurer with
  | none => (.undef, s)
  | some m =>
      if s.enabled then
        let m2 := { m with measurementCount := m.measurementCount + 1 }
        (.undef, { s with measurer := some m2 })
      else (.undef, s)

end AreaMeasurementManager

/-! ## VisibilityManager (src/unnamed/part_006)

The FragmentsManager model list, the item properties carrying IFC
categories, the Hider component acting on per-item visibility flags, and
the hiddenItems / isolatedItems bookkeeping Maps. -/

/-- One entry of model.properties: the fields getItemsByCategory reads. -/
structure PropItem where
  category : Option String
  expressID : ℕ
  deriving DecidableEq, Repr

/-- One model of fragmentsManager.list. -/
structure FragModel where
  uuid : String
  modelName : String
  properties : Option (List PropItem)
  deriving DecidableEq, Repr

/-- The modelId-to-itemIds object built by getItemsByCategory. -/
abbrev ModelIdMap := JsMap (List ℕ)

/-- One loaded item of the scene, with the visibility flag the OBC.Hider
component controls. -/
structure LoadedItem where
  modelId : String
  expressID : ℕ
  visible : Bool
  deriving DecidableEq, Repr

/-- The bookkeeping record stored in hiddenItems / isolatedItems. -/
structure HiddenEntry where
  modelId : String
  itemIds : List ℕ
  entryKind : String
  categories : List String
  deriving DecidableEq, Repr

structure VisState where
  /-- this.hider after init (null-check target of every method). -/
  hiderPresent : Bool
  /-- components.get(OBC.FragmentsManager) availability. -/
  fragmentsPresent : Bool
  /-- fragmentsManager.list.values(). -/
  models : List FragModel
  /-- The loaded item set the Hider component acts on. -/
  items : List LoadedItem
  hiddenItems : JsMap HiddenEntry
  isolatedItems : JsMap HiddenEntry
  deriving DecidableEq, Repr

namespace VisibilityManager

/-- Membership of a loaded item in a modelId-to-itemIds map. -/
def inModelIdMap (m : ModelIdMap) (it : LoadedItem) : Bool :=
  match jsGet m it.modelId with
  | none => false
  | some ids => ids.contains it.expressID

/-- hider.set(true) / hider.set(false) with no target: every loaded item. -/
def hiderSetAll (b : Bool) (items : List LoadedItem) : List LoadedItem :=
  items.map (fun it => { it with visible := b })

/-- hider.set(b, map): only the items listed in the map. -/
def hiderSetMap (b : Bool) (m : ModelIdMap) (items : List LoadedItem) : List LoadedItem :=
  items.map (fun it => if inModelIdMap m it then { it with visible := b } else it)

/-- hider.isolate(map): items in the map become visible, all others hidden. -/
def hiderIsolate (m : ModelIdMap) (items : List LoadedItem) : List LoadedItem :=
  items.map (fun it => { it with visible := inModelIdMap m it })

/-- part_006 lines 200-225.  Both the query categories and the stored
property categories are uppercased before comparison; prop.category must
also be truthy (present and not the empty string).  The modelId falls back
from uuid to name to the current number of result keys, and object index
assignment overwrites on key collision. -/
def getItemsByCategory (models : List FragModel) (categories : List String) : ModelIdMap :=
  let categorySet := categories.map jsToUpper
  models.foldl
    (fun result model =>
      match model.properties with
      | none => result
      | some props =>
          let itemIds :=
            (props.filter (fun p =>
              match p.category with
              | none => false
              | some c => !(c == "") && categorySet.contains (jsToUpper c))).map
              (fun p => p.expressID)
          if itemIds.length > 0 then
            let modelId :=
              if model.uuid ≠ "" then model.uuid
              else if model.modelName ≠ "" then model.modelName
              else toString (jsKeys result).length
            jsSet result modelId itemIds
          else result)
    []

/-- The bookkeeping key and record stored for one Object.entries pair of
the items map: the key is modelId, a colon, and the itemIds joined with
commas, and the value is the bookkeeping object. -/
def bookkeepingInsert (categories : List String) (acc : JsMap HiddenEntry)
    (entry : String × List ℕ) : JsMap HiddenEntry :=
  jsSet acc (entry.1 ++ ":" ++ String.intercalate "," (entry.2.map toString))
    { modelId := entry.1, itemIds := entry.2, entryKind := "category",
      categories := categories }

/-- part_006 lines 35-51. -/
def showAll (s : VisState) : JsRet × VisState :=
  if s.hiderPresent then
    (.bool true,
      { s with items := hiderSetAll true s.items, hiddenItems := [], isolatedItems := [] })
  else (.bool false, s)

/-- part_006 lines 54-94. -/
def hideByCategory (s : VisState) (categories : List String) : JsRet × VisState :=
  if ¬ s.hiderPresent then (.bool false, s)
  else if ¬ s.fragmentsPresent then (.bool false, s)
  else
    let itemsToHide := getItemsByCategory s.models categories
    if itemsToHide.length = 0 then (.bool false, s)
    else
      let hidden2 := itemsToHide.foldl (bookkeepingInsert categories) s.hiddenItems
      (.bool true,
        { s with items := hiderSetMap false itemsToHide s.items, hiddenItems := hidden2 })

/-- part_006 lines 97-137. -/
def isolateByCategory (s : VisState) (categories : List String) : JsRet × VisState :=
  if ¬ s.hiderPresent then (.bool false, s)
  else if ¬ s.fragmentsPresent then (.bool false, s)
  else
    let itemsToIsolate := getItemsByCategory s.models categories
    if itemsToIsolate.length = 0 then (.bool false, s)
    else
      let isolated2 := itemsToIsolate.foldl (bookkeepingInsert categories) s.isolatedItems
      (.bool true,
        { s with items := hiderIsolate itemsToIsolate s.items, isolatedItems := isolated2 })

/-- part_006 lines 170-197.  No bookkeeping is stored here. -/
def showCategories (s : VisState) (categories : List String) : JsRet × VisState :=
  if ¬ s.hiderPresent then (.bool false, s)
  else if ¬ s.fragmentsPresent then (.bool false, s)
  else
    let itemsToShow := getItemsByCategory s.models categories
    if itemsToShow.length = 0 then (.bool false, s)
    else (.bool true, { s with items := hiderSetMap true itemsToShow s.items })

end VisibilityManager

/-! ## CameraControlsManager.fitToAll (src/unnamed/part_000) -/

/-- The camera fields the sidebar-offset adjustment reads and writes. -/
structure FitCamera where
  posX : ℚ
  posY : ℚ
  posZ : ℚ
  fov : ℚ
  aspect : ℚ
  deriving DecidableEq, Repr

/-- One child reached by scene.traverse, with its isMesh flag. -/
structure SceneChild where
  isMesh : Bool
  deriving DecidableEq, Repr

namespace CameraControlsManager

/-- part_000 lines 193-245.  The body collects the meshes of the scene;
only when at least one mesh was found does it run this.camera.fit(meshes)
followed by the sidebar-offset adjustment (the 350 px worldShift
computation from window size, fov, aspect and camera distance), both
represented here by the fitShift argument since they involve the wrapped
library and trigonometry on doubles.  With no meshes it logs a warning and
returns false without touching the camera. -/
def fitToAll (fitShift : FitCamera → List SceneChild → FitCamera)
    (scene : List SceneChild) (cam : FitCamera) : JsRet × FitCamera :=
  let meshes := scene.filter (fun child => child.isMesh)
  if meshes.length > 0 then (.bool true, fitShift cam meshes)
  else (.bool false, cam)

end CameraControlsManager

/-! ## ViewCubeManager.determineFaceFromClick (src/view-cube-manager.js) -/

namespace ViewCubeManager

/-- view-cube-manager.js lines 209-271, translated literally; click
coordinates and the cube extent are modelled as rationals. -/
def determineFaceFromClick (clickX clickY width height : ℚ) : String :=
  let centerX := width / 2
  let centerY := height / 2
  let dx := clickX - centerX
  let dy := clickY - centerY
  let edgeThreshold := width * (3 / 10)
  let isTopEdge : Bool := clickY < edgeThreshold
  let isBottomEdge : Bool := clickY > height - edgeThreshold
  let isLeftEdge : Bool := clickX < edgeThreshold
  let isRightEdge : Bool := clickX > width - edgeThreshold
  if isTopEdge && !isLeftEdge && !isRightEdge then "top"
  else if isBottomEdge && !isLeftEdge && !isRightEdge then "bottom"
  else if isLeftEdge && !isTopEdge && !isBottomEdge then "left"
  else if isRightEdge && !isTopEdge && !isBottomEdge then "right"
  else if (isTopEdge && isLeftEdge) || (isTopEdge && isRightEdge) ||
      (isBottomEdge && isLeftEdge) || (isBottomEdge && isRightEdge) then "back"
  else
    let absDx := |dx|
    let absDy := |dy|
    if absDx > absDy then (if dx < 0 then "left" else "right")
    else if absDy > width * (1 / 10) then (if dy < 0 then "top" else "bottom")
    else "front"

/-- The six face event names used by the click handlers. -/
def faceNames : List String :=
  ["front", "back", "left", "right", "top", "bottom"]

end ViewCubeManager

/-! ## Bootstrap re-attempt mechanisms (src/unnamed/part_004) -/

/-- Result of one invocation of a panel-control setup function of the
bootstrap script. -/
inductive SetupOutcome where
  | controlsBuilt
  | retryScheduled (delayMs : ℕ)
  deriving DecidableEq, Repr

/-- part_004 lines 526-534 (and the six analogous setup functions for
fragment models, camera, views, clipper, items finder and visibility
controls): when document.getElementById finds no container the function
passes itself to setTimeout with a 200 ms delay and returns; otherwise it
builds the controls. -/
def setupIfcControls (containerPresent : Bool) : SetupOutcome :=
  if containerPresent then .controlsBuilt else .retryScheduled 200

/-- Whether a setup invocation schedules a re-attempt of itself. -/
def reattempts : SetupOutcome → Bool
  | .controlsBuilt => false
  | .retryScheduled _ => true

/-- part_004 line 135: the fixed delay raced against fragments.core.update
in initApp. -/
def initAppUpdateRaceMs : ℕ := 2000

/-- part_004 line 532: the re-attempt delay of the control setup
functions. -/
def setupRetryDelayMs : ℕ := 200

/-- part_004 lines 131-144: Promise.race of the fragments core update
against the fixed timeout; the argument tells whether the update settles
within the race window. -/
inductive RaceResult where
  | updated
  | timedOut
  deriving DecidableEq, Repr

def initAppUpdateRace (updateSettlesInTime : Bool) : RaceResult :=
  if updateSettlesInTime then .updated else .timedOut

/-! ## Concrete states used by witnesses and counterexamples -/

/-- A ViewsManager state with no saved views (claim C6). -/
def vs0 : ViewsState :=
  { savedViews := [], currentViewName := none,
    camera := { posX := 1, posY := 2, posZ := 3, rotX := 0, rotY := 0, rotZ := 0,
                fov := 45, zoom := 1 },
    now := "12:00:00" }

/-- An AreaMeasurementManager state before a successful init, with no
measurer (claim C1). -/
def ams0 : AreaMeasurementState := { measurer := none, enabled := false }

/-- A successfully initialized clipper manager state (claim C9). -/
def cstate0 : ClipperState :=
  { clipper := some
      { enabled := true,
        config := { colorHex := 0xff0000, opacity := 1/5, size := 5, visible := true },
        list := [("p1", { visible := true, enabled := true })] },
    clipperReady := true }

/-- A visibility manager state with one loaded wall item, currently hidden
(claim C2). -/
def vis0 : VisState :=
  { hiderPresent := true, fragmentsPresent := true,
    models := [{ uuid := "m1", modelName := "model",
                 properties := some [{ category := some "Wall", expressID := 7 }] }],
    items := [{ modelId := "m1", expressID := 7, visible := false }],
    hiddenItems := [], isolatedItems := [] }

/-- A visibility manager state with one loaded, visible wall item
(claim C10). -/
def vis1 : VisState :=
  { hiderPresent := true, fragmentsPresent := true,
    models := [{ uuid := "m1", modelName := "",
                 properties := some [{ category := some "Wall", expressID := 7 }] }],
    items := [{ modelId := "m1", expressID := 7, visible := true }],
    hiddenItems := [], isolatedItems := [] }

/-- A camera state for the fitToAll witness (claim C7). -/
def cam0 : FitCamera := { posX := 0, posY := 0, posZ := 0, fov := 45, aspect := 16/9 }

/-! ## JsMap lemmas -/

theorem jsHas_jsDelete {α : Type} (m : JsMap α) (k : String) :
    jsHas (jsDelete m k) k = false := by
  rw [jsHas, List.any_eq_false]
  intro p hp
  have := List.of_mem_filter hp
  simpa using this

theorem not_mem_jsKeys_of_jsHas_eq_false {α : Type} {m : JsMap α} {k : String}
    (h : jsHas m k = false) : k ∉ jsKeys m := by
  intro hmem
  rcases List.mem_map.mp hmem with ⟨p, hp, hk⟩
  have hall := (List.any_eq_false).mp h
  exact hall p hp (by simp [hk])

theorem mem_jsKeys_of_jsHas {α : Type} {m : JsMap α} {k : String}
    (h : jsHas m k = true) : k ∈ jsKeys m := by
  rcases List.any_eq_true.mp h with ⟨p, hp, hpk⟩
  exact List.mem_map.mpr ⟨p, hp, by simpa using hpk⟩

theorem jsFind_eq_none_of_not_has {α : Type} {m : JsMap α} {k : String}
    (h : jsHas m k = false) : m.find? (fun p => p.1 == k) = none := by
  rw [List.find?_eq_none]
  intro p hp
  exact fun hc => (List.any_eq_false.mp h) p hp hc

theorem jsFind_map_update {α : Type} (m : JsMap α) (k : String) (v : α)
    (h : jsHas m k = true) :
    (m.map (fun p => if p.1 = k then (k, v) else p)).find? (fun p => p.1 == k)
      = some (k, v) := by
  induction m with
  | nil => simp [jsHas] at h
  | cons p t ih =>
      by_cases hp : p.1 = k
      · rw [List.map_cons, if_pos hp, List.find?_cons_of_pos]
        simp
      · have h2 : jsHas t k = true := by
          have := List.any_eq_true.mp h
          rcases this with ⟨q, hq, hqk⟩
          rcases List.mem_cons.mp hq with rfl | hqt
          · exact absurd (by simpa using hqk) hp
          · exact List.any_eq_true.mpr ⟨q, hqt, hqk⟩
        rw [List.map_cons, if_neg hp, List.find?_cons_of_neg]
        · exact ih h2
        · simp [hp]

theorem jsGet_jsSet {α : Type} (m : JsMap α) (k : String) (v : α) :
    jsGet (jsSet m k v) k = some v := by
  by_cases h : jsHas m k
  · rw [jsGet, jsSet, if_pos h, jsFind_map_update m k v h]
    rfl
  · rw [jsGet, jsSet, if_neg h, List.find?_append,
      jsFind_eq_none_of_not_has (Bool.eq_false_iff.mpr h)]
    simp

theorem jsHas_jsSet {α : Type} (m : JsMap α) (k : String) (v : α) :
    jsHas (jsSet m k v) k = true := by
  by_cases h : jsHas m k
  · rw [jsSet, if_pos h, jsHas, List.any_map]
    rcases List.any_eq_true.mp h with ⟨p, hp, hpk⟩
    refine List.any_eq_true.mpr ⟨p, hp, ?_⟩
    have hk : p.1 = k := by simpa using hpk
    simp [Function.comp, hk]
  · rw [jsSet, if_neg h, jsHas, List.any_append]
    simp

theorem deleteView_eq_of_has {s : ViewsState} {v : String}
    (h : jsHas s.savedViews v = true) :
    ViewsManager.deleteView s v
      = (.bool true,
          { s with
            savedViews := jsDelete s.savedViews v,
            currentViewName :=
              if s.currentViewName = some v then none else s.currentViewName }) := by
  rw [ViewsManager.deleteView, h]
  simp

theorem deleteView_eq_of_not_has {s : ViewsState} {v : String}
    (h : jsHas s.savedViews v = false) :
    ViewsManager.deleteView s v = (.bool false, s) := by
  rw [ViewsManager.deleteView, h]
  simp

theorem saveCurrentView_eq_of_ok {s : ViewsState} {v : String}
    (hguard : ¬ (v = "" ∨ jsTrim v = "")) :
    ViewsManager.saveCurrentView s v
      = (.bool true,
          { s with
            savedViews :=
              jsSet s.savedViews v { name := v, pose := s.camera, timestamp := s.now } }) := by
  rw [ViewsManager.saveCurrentView, if_neg hguard]

/-! ## Claim theorems -/

/-- C3: for every view name v, ViewsManager.deleteView(v) removes v from
the list returned by getViewNames(), and a second deleteView(v) returns
false and leaves the whole state, hence the savedViews map and the name
list, unchanged. -/
theorem deleteView_removes_and_idempotent (s : ViewsState) (v : String) :
    v ∉ ViewsManager.getViewNames (ViewsManager.deleteView s v).2 ∧
    ViewsManager.deleteView (ViewsManager.deleteView s v).2 v
      = (.bool false, (ViewsManager.deleteView s v).2) := by
  have hfalse : jsHas (ViewsManager.deleteView s v).2.savedViews v = false := by
    by_cases h : jsHas s.savedViews v
    · rw [deleteView_eq_of_has h]
      exact jsHas_jsDelete s.savedViews v
    · rw [deleteView_eq_of_not_has (Bool.eq_false_iff.mpr h)]
      exact Bool.eq_false_iff.mpr h
  exact ⟨not_mem_jsKeys_of_jsHas_eq_false hfalse, deleteView_eq_of_not_has hfalse⟩

/-- C6: ViewsManager.saveCurrentView stores, under the given non-empty
name, exactly the current camera pose (position, rotation, fov, zoom),
after which hasView returns true and getViewNames contains the name; for
an empty or whitespace-only name it returns false and leaves the state
unchanged. -/
theorem saveCurrentView_spec (s : ViewsState) (v : String) :
    (jsTrim v = "" → ViewsManager.saveCurrentView s v = (.bool false, s)) ∧
    (jsTrim v ≠ "" →
      (ViewsManager.saveCurrentView s v).1 = .bool true ∧
      jsGet (ViewsManager.saveCurrentView s v).2.savedViews v
        = some { name := v, pose := s.camera, timestamp := s.now } ∧
      ViewsManager.hasView (ViewsManager.saveCurrentView s v).2 v = true ∧
      v ∈ ViewsManager.getViewNames (ViewsManager.saveCurrentView s v).2) := by
  constructor
  · intro h
    rw [ViewsManager.saveCurrentView, if_pos (Or.inr h)]
  · intro h
    have hguard : ¬ (v = "" ∨ jsTrim v = "") := by
      rintro (rfl | htrim)
      · exact h rfl
      · exact h htrim
    rw [saveCurrentView_eq_of_ok hguard]
    refine ⟨rfl, jsGet_jsSet _ _ _, jsHas_jsSet _ _ _, ?_⟩
    exact mem_jsKeys_of_jsHas (jsHas_jsSet _ _ _)

/-- C6 witness: a whitespace-only name is rejected and a real name is
stored and listed, at a concrete state. -/
theorem saveCurrentView_spec_witness :
    ViewsManager.saveCurrentView vs0 "   " = (.bool false, vs0) ∧
    (ViewsManager.saveCurrentView vs0 "Front").1 = .bool true ∧
    ViewsManager.hasView (ViewsManager.saveCurrentView vs0 "Front").2 "Front" = true := by
  refine ⟨(saveCurrentView_spec vs0 "   ").1 (by decide), ?_, ?_⟩
  · exact ((saveCurrentView_spec vs0 "Front").2 (by decide)).1
  · exact ((saveCurrentView_spec vs0 "Front").2 (by decide)).2.2.1

/-- C1 counterexample: AreaMeasurementManager.toggle, one of the methods
cited by the claim itself, evaluates to undefined on its failure path (measurer
not initialized) at a concrete state; undefined is neither the boolean
false nor the null sentinel, so not every public manager method returns a
boolean/null sentinel on failure. -/
theorem toggle_returns_undefined_counterexample :
    (AreaMeasurementManager.toggle ams0 true).1 = JsRet.undef ∧
    JsRet.undef ≠ JsRet.bool false ∧ JsRet.undef ≠ JsRet.null := by
  refine ⟨rfl, by decide, by decide⟩

/-- C1 amended: the ClipperManager methods cited by the claim do follow
the sentinel pattern (setEnabled evaluates to an explicit boolean on every
state), but the AreaMeasurementManager methods toggle and create have no
recovery block around their body and evaluate to undefined on every path,
including their failure paths. -/
theorem manager_sentinel_pattern_amended :
    (∀ (cs : ClipperState) (b : Bool),
      (ClipperManager.setEnabled cs b).1 = JsRet.bool true ∨
      (ClipperManager.setEnabled cs b).1 = JsRet.bool false) ∧
    (∀ (ms : AreaMeasurementState) (b : Bool),
      (AreaMeasurementManager.toggle ms b).1 = JsRet.undef) ∧
    (∀ ms : AreaMeasurementState, (AreaMeasurementManager.create ms).1 = JsRet.undef) := by
  refine ⟨fun cs b => ?_, fun ms b => ?_, fun ms => ?_⟩
  · cases h : cs.clipper <;> simp [ClipperManager.setEnabled, h]
  · cases h : ms.measurer <;> simp [AreaMeasurementManager.toggle, h]
  · cases h : ms.measurer with
    | none => simp [AreaMeasurementManager.create, h]
    | some m => cases he : ms.enabled <;> simp [AreaMeasurementManager.create, h, he]

/-- C4: applying ClipperManager.togglePlaneVisibility twice leaves the
visible flag of every clipping plane at its original value (a single
application already does, because the loop iterates Map entries rather
than planes), and applying ClipperManager.toggleClippings twice restores
the enabled flag of every clipping plane. -/
theorem clipper_double_toggle_restores (s : ClipperState) :
    (ClipperManager.planeList
        (ClipperManager.togglePlaneVisibility
          (ClipperManager.togglePlaneVisibility s).2).2).map (fun p => p.2.visible)
      = (ClipperManager.planeList s).map (fun p => p.2.visible) ∧
    (ClipperManager.planeList
        (ClipperManager.toggleClippings
          (ClipperManager.toggleClippings s).2).2).map (fun p => p.2.enabled)
      = (ClipperManager.planeList s).map (fun p => p.2.enabled) := by
  have hvis : ∀ t : ClipperState, (ClipperManager.togglePlaneVisibility t).2 = t := by
    intro t
    cases h : t.clipper <;> simp [ClipperManager.togglePlaneVisibility, h]
  refine ⟨by rw [hvis, hvis], ?_⟩
  cases h : s.clipper with
  | none => simp [ClipperManager.toggleClippings, h]
  | some c =>
      simp only [ClipperManager.toggleClippings, h, ClipperManager.planeList,
        List.map_map]
      simp [Function.comp]

/-- C5 counterexample: setupIfcControls, cited by the claim itself,
re-attempts a deferred step: when its controls container is not yet in the
DOM it schedules itself again with a 200 ms timeout, so the bootstrap
Promise.race is not the only re-attempt mechanism in the program. -/
theorem setupIfcControls_retries_counterexample :
    reattempts (setupIfcControls false) = true ∧
    setupIfcControls false = SetupOutcome.retryScheduled 200 := by
  exact ⟨rfl, rfl⟩

/-- C5 amended: the program has exactly two re-attempt mechanisms: the
bootstrap race of the fragments core update against a fixed 2000 ms delay,
and the panel-control setup functions, which re-schedule themselves every
200 ms until their container element exists. -/
theorem retry_mechanisms_amended :
    (∀ b, setupIfcControls b
        = if b then SetupOutcome.controlsBuilt
          else SetupOutcome.retryScheduled setupRetryDelayMs) ∧
    initAppUpdateRaceMs = 2000 ∧
    (∀ b, initAppUpdateRace b
        = if b then RaceResult.updated else RaceResult.timedOut) := by
  exact ⟨fun b => by cases b <;> rfl, rfl, fun b => rfl⟩

/-- C7: when the traversed scene contains no meshes,
CameraControlsManager.fitToAll returns false and leaves the camera
untouched, whatever the camera fit and sidebar-offset adjustment would
have done. -/
theorem fitToAll_no_meshes (fitShift : FitCamera → List SceneChild → FitCamera)
    (scene : List SceneChild) (cam : FitCamera)
    (h : ∀ child ∈ scene, child.isMesh = false) :
    CameraControlsManager.fitToAll fitShift scene cam = (JsRet.bool false, cam) := by
  have hf : scene.filter (fun child => child.isMesh) = [] := by
    rw [List.filter_eq_nil_iff]
    intro a ha
    simp [h a ha]
  simp [CameraControlsManager.fitToAll, hf]

/-- C7 witness: a scene whose only child is not a mesh, at a concrete
camera. -/
theorem fitToAll_no_meshes_witness :
    CameraControlsManager.fitToAll (fun c _ => c) [{ isMesh := false }] cam0
      = (JsRet.bool false, cam0) :=
  fitToAll_no_meshes (fun c _ => c) [{ isMesh := false }] cam0 (by decide)

/-- C8: for every click inside a square cube area of positive size,
determineFaceFromClick returns one of the six face names and never an
empty (falsy) string, so the falsy-face guard in the click handlers never
fires under that precondition. -/
theorem determineFaceFromClick_total (clickX clickY width height : ℚ)
    (_hx0 : 0 ≤ clickX) (_hxw : clickX ≤ width) (_hy0 : 0 ≤ clickY)
    (_hyh : clickY ≤ height) (_hwh : width = height) (_hw : 0 < width) :
    ViewCubeManager.determineFaceFromClick clickX clickY width height
        ∈ ViewCubeManager.faceNames ∧
    ViewCubeManager.determineFaceFromClick clickX clickY width height ≠ "" := by
  rw [ViewCubeManager.determineFaceFromClick]
  dsimp only
  split_ifs <;> simp [ViewCubeManager.faceNames]

/-- C8 witness: the center of the default 120 by 120 cube maps to the
front face. -/
theorem determineFaceFromClick_total_witness :
    ViewCubeManager.determineFaceFromClick 60 60 120 120 ∈ ViewCubeManager.faceNames ∧
    ViewCubeManager.determineFaceFromClick 60 60 120 120 ≠ "" :=
  determineFaceFromClick_total 60 60 120 120 (by norm_num) (by norm_num)
    (by norm_num) (by norm_num) rfl (by norm_num)

/-- C9: a successful ClipperManager.init establishes the config invariant
0.1 <= opacity <= 1 and 2 <= size <= 10 (it sets opacity 0.2 and size 5),
and every ClipperManager operation preserves it: setPlaneOpacity clamps
into [0.1, 1], setPlaneSize clamps into [2, 10], and no other operation
writes those fields. -/
theorem clipper_config_invariant :
    (∀ (c : Clipper) (s : ClipperState),
      ClipperManager.ConfigInv (ClipperManager.init (some c) s).2) ∧
    (∀ (op : ClipperManager.ClipperOp) (s : ClipperState),
      ClipperManager.ConfigInv s → ClipperManager.ConfigInv (ClipperManager.step op s).2) := by
  constructor
  · intro c s d hd
    have hc : d.config
        = { colorHex := 0xff0000, opacity := 1/5, size := 5, visible := true } := by
      simp only [ClipperManager.init] at hd
      rw [← Option.some_inj.mp hd]
    rw [hc]
    norm_num
  · intro op s hInv
    cases hcl : s.clipper with
    | none =>
        intro d hd
        cases op <;>
          simp only [ClipperManager.step, ClipperManager.setEnabled,
            ClipperManager.createClippingPlane, ClipperManager.deleteClippingPlane,
            ClipperManager.deleteAllClippingPlanes, ClipperManager.togglePlaneVisibility,
            ClipperManager.toggleClippings, ClipperManager.setPlaneColor,
            ClipperManager.setPlaneOpacity, ClipperManager.setPlaneSize,
            ClipperManager.setPlaneVisibleInConfig, hcl] at hd <;>
          exact absurd hd (by simp)
    | some c =>
        have hb := hInv c hcl
        intro d hd
        cases op with
        | setEnabled b =>
            simp only [ClipperManager.step, ClipperManager.setEnabled, hcl] at hd
            rw [← Option.some_inj.mp hd]
            exact hb
        | createClippingPlane newId newPlane =>
            simp only [ClipperManager.step, ClipperManager.createClippingPlane, hcl] at hd
            by_cases he : c.enabled
            · rw [if_pos he] at hd
              simp only at hd
              rw [← Option.some_inj.mp hd]
              exact hb
            · rw [if_neg he] at hd
              simp only at hd
              rw [← Option.some_inj.mp (hcl.symm.trans hd)]
              exact hb
        | deleteClippingPlane target =>
            simp only [ClipperManager.step, ClipperManager.deleteClippingPlane, hcl] at hd
            cases target with
            | none =>
                simp only at hd
                rw [← Option.some_inj.mp (hcl.symm.trans hd)]
                exact hb
            | some k =>
                simp only at hd
                rw [← Option.some_inj.mp hd]
                exact hb
        | deleteAllClippingPlanes =>
            simp only [ClipperManager.step, ClipperManager.deleteAllClippingPlanes, hcl] at hd
            rw [← Option.some_inj.mp hd]
            exact hb
        | togglePlaneVisibility =>
            simp only [ClipperManager.step, ClipperManager.togglePlaneVisibility, hcl] at hd
            rw [← Option.some_inj.mp hd]
            exact hb
        | toggleClippings =>
            simp only [ClipperManager.step, ClipperManager.toggleClippings, hcl] at hd
            rw [← Option.some_inj.mp hd]
            exact hb
        | setPlaneColor colorHex =>
            simp only [ClipperManager.step, ClipperManager.setPlaneColor, hcl] at hd
            rw [← Option.some_inj.mp hd]
            exact hb
        | setPlaneOpacity opacity =>
            simp only [ClipperManager.step, ClipperManager.setPlaneOpacity, hcl] at hd
            rw [← Option.some_inj.mp hd]
            refine ⟨le_max_left _ _, max_le (by norm_num) (min_le_left _ _), hb.2.2.1, hb.2.2.2⟩
        | setPlaneSize size =>
            simp only [ClipperManager.step, ClipperManager.setPlaneSize, hcl] at hd
            rw [← Option.some_inj.mp hd]
            exact ⟨hb.1, hb.2.1, le_max_left _ _, max_le (by norm_num) (min_le_left _ _)⟩
        | setPlaneVisibleInConfig visible =>
            simp only [ClipperManager.step, ClipperManager.setPlaneVisibleInConfig, hcl] at hd
            rw [← Option.some_inj.mp hd]
            exact hb

/-- C9 witness: clamping an out-of-range opacity at a concrete initialized
state keeps the invariant. -/
theorem clipper_config_invariant_witness :
    ClipperManager.ConfigInv
      (ClipperManager.step (ClipperManager.ClipperOp.setPlaneOpacity 5) cstate0).2 :=
  clipper_config_invariant.2 (ClipperManager.ClipperOp.setPlaneOpacity 5) cstate0 (by
    intro c hc
    rw [← Option.some_inj.mp hc]
    norm_num)

/-- C2: for every category set, VisibilityManager.isolateByCategory
followed by VisibilityManager.showAll restores full visibility of every
loaded item, and showAll empties both the hiddenItems and isolatedItems
bookkeeping maps (given the hider component was found at init). -/
theorem isolate_then_showAll_restores (s : VisState) (cats : List String)
    (h : s.hiderPresent = true) :
    (∀ it ∈ (VisibilityManager.showAll
        (VisibilityManager.isolateByCategory s cats).2).2.items, it.visible = true) ∧
    (VisibilityManager.showAll
        (VisibilityManager.isolateByCategory s cats).2).2.hiddenItems = [] ∧
    (VisibilityManager.showAll
        (VisibilityManager.isolateByCategory s cats).2).2.isolatedItems = [] := by
  have h1 : (VisibilityManager.isolateByCategory s cats).2.hiderPresent = true := by
    rw [VisibilityManager.isolateByCategory]
    dsimp only
    split_ifs <;> simp [h]
  generalize (VisibilityManager.isolateByCategory s cats).2 = s1 at h1 ⊢
  rw [VisibilityManager.showAll, h1]
  refine ⟨?_, by simp, by simp⟩
  intro it hit
  simp only [if_true, VisibilityManager.hiderSetAll, List.mem_map] at hit
  rcases hit with ⟨x, _hx, rfl⟩
  rfl

/-- C2 witness: at a concrete state with one hidden wall item, isolating
the walls and then showing all makes every item visible and clears both
maps. -/
theorem isolate_then_showAll_restores_witness :
    (∀ it ∈ (VisibilityManager.showAll
        (VisibilityManager.isolateByCategory vis0 ["WALL"]).2).2.items, it.visible = true) ∧
    (VisibilityManager.showAll
        (VisibilityManager.isolateByCategory vis0 ["WALL"]).2).2.hiddenItems = [] ∧
    (VisibilityManager.showAll
        (VisibilityManager.isolateByCategory vis0 ["WALL"]).2).2.isolatedItems = [] :=
  isolate_then_showAll_restores vis0 ["WALL"] rfl

/-- C10 counterexample: hideByCategory does not behave identically for
the category lists consisting of the single word wall written in lower
case and in upper case: at a concrete one-model state the two calls leave
different states, because the bookkeeping entry records the query in its
original casing. -/
theorem hideByCategory_case_counterexample :
    (VisibilityManager.hideByCategory vis1 ["wall"]).2
      ≠ (VisibilityManager.hideByCategory vis1 ["WALL"]).2 := by
  decide

/-- C10 amended: getItemsByCategory returns the same modelId-to-itemIds
map for any letter-case variant of the query categories (both the query
and the stored property categories are uppercased before comparison);
consequently showCategories behaves fully identically for case variants,
and hideByCategory and isolateByCategory return the same value and apply
the same visibility effect, differing only in the original-case category
list recorded in their bookkeeping entries. -/
theorem category_case_insensitive_amended (models : List FragModel)
    (s : VisState) (cats cats2 : List String)
    (h : cats.map jsToUpper = cats2.map jsToUpper) :
    VisibilityManager.getItemsByCategory models cats
      = VisibilityManager.getItemsByCategory models cats2 ∧
    VisibilityManager.showCategories s cats = VisibilityManager.showCategories s cats2 ∧
    (VisibilityManager.hideByCategory s cats).1
      = (VisibilityManager.hideByCategory s cats2).1 ∧
    (VisibilityManager.hideByCategory s cats).2.items
      = (VisibilityManager.hideByCategory s cats2).2.items ∧
    (VisibilityManager.isolateByCategory s cats).1
      = (VisibilityManager.isolateByCategory s cats2).1 ∧
    (VisibilityManager.isolateByCategory s cats).2.items
      = (VisibilityManager.isolateByCategory s cats2).2.items := by
  have hg : ∀ ms : List FragModel,
      VisibilityManager.getItemsByCategory ms cats
        = VisibilityManager.getItemsByCategory ms cats2 := by
    intro ms
    rw [VisibilityManager.getItemsByCategory, VisibilityManager.getItemsByCategory, h]
  have hgs := hg s.models
  refine ⟨hg models, ?_, ?_, ?_, ?_, ?_⟩
  · rw [VisibilityManager.showCategories, VisibilityManager.showCategories, hgs]
  · rw [VisibilityManager.hideByCategory, VisibilityManager.hideByCategory, hgs]
    dsimp only
    split_ifs <;> rfl
  · rw [VisibilityManager.hideByCategory, VisibilityManager.hideByCategory, hgs]
    dsimp only
    split_ifs <;> rfl
  · rw [VisibilityManager.isolateByCategory, VisibilityManager.isolateByCategory, hgs]
    dsimp only
    split_ifs <;> rfl
  · rw [VisibilityManager.isolateByCategory, VisibilityManager.isolateByCategory, hgs]
    dsimp only
    split_ifs <;> rfl

/-- C10 amended witness: the lower and upper case spellings of wall
select the same items and hide the same items at a concrete state. -/
theorem category_case_insensitive_amended_witness :
    VisibilityManager.getItemsByCategory vis1.models ["wall"]
      = VisibilityManager.getItemsByCategory vis1.models ["WALL"] ∧
    (VisibilityManager.hideByCategory vis1 ["wall"]).2.items
      = (VisibilityManager.hideByCategory vis1 ["WALL"]).2.items := by
  have h := category_case_insensitive_amended vis1.models vis1 ["wall"] ["WALL"] (by decide)
  exact ⟨h.1, h.2.2.2.1⟩

end Explorer3D
